import Mathlib

/-!
# Shallow embedding of the tempmail-server inbound mail path

This file embeds, in Lean 4, the inbound-mail core of the
`tempmail-server` repository:

* `SMTPHandler.handleSMTPCommand` / `handleConnection` /
  `processSMTPEmail` / `extractEmail` / `resetCurrentMail`
  (src/services/postfixHandler.js; src/services/smptServer.js holds a
  byte-identical copy of the same handler logic),
* `EmailService.processIncomingEmail`, `extractRecipientEmail`,
  `decodeQuotedPrintable` and the leaked-header cleanup
  (src/services/emailService.js),
* `TempEmail.findByEmail` (src/models/TempEmail.js).

JavaScript strings are modelled as Lean `String` (lists of characters,
each standing for one UTF-16 code unit / code point; all inputs in the
claims are ASCII so the two coincide).  JavaScript `Date` values are
modelled as `Nat` milliseconds.  The external `mailparser.simpleParser`
collaborator is modelled by taking its output (`ParsedMail`) as an
input, and the PostgreSQL store by an explicit list of rows.
-/

namespace TempMail

/-! ## JavaScript string primitives -/

/-- Source `String.prototype.toUpperCase` restricted to ASCII (all inputs in the
claims are ASCII). -/
def ucChar (c : Char) : Char :=
  if 'a' ≤ c ∧ c ≤ 'z' then Char.ofNat (c.toNat - 32) else c

/-- Source `String.prototype.toLowerCase` restricted to ASCII. -/
def lcChar (c : Char) : Char :=
  if 'A' ≤ c ∧ c ≤ 'Z' then Char.ofNat (c.toNat + 32) else c

def jsToUpper (s : String) : String := ⟨s.data.map ucChar⟩

def jsToLower (s : String) : String := ⟨s.data.map lcChar⟩

/-- Source `String.prototype.startsWith`. -/
def jsStartsWith (s pre : String) : Bool := pre.data.isPrefixOf s.data

/-- Substring occurrence at some position. -/
def occursIn (pat : List Char) : List Char → Bool
  | [] => pat.isEmpty
  | c :: rest => pat.isPrefixOf (c :: rest) || occursIn pat rest

/-- Source `String.prototype.includes` (substring containment). -/
def jsIncludes (s pat : String) : Bool := occursIn pat.data s.data

/-- Whitespace as trimmed by `String.prototype.trim` (ASCII part). -/
def jsWs (c : Char) : Bool :=
  c = ' ' ∨ c = '\t' ∨ c = '\n' ∨ c = '\r' ∨ c = '\x0b' ∨ c = '\x0c'

/-- Source `String.prototype.trim`. -/
def jsTrim (s : String) : String :=
  ⟨(s.data.dropWhile jsWs).reverse.dropWhile jsWs |>.reverse⟩

/-- JavaScript `x || d` for an optional string `x` (falsy = absent or
empty). -/
def jsOr (o : Option String) (d : String) : String :=
  match o with
  | none => d
  | some s => if s = "" then d else s

/-- JavaScript truthiness of an optional string. -/
def jsTruthy (o : Option String) : Bool :=
  match o with
  | none => false
  | some s => s ≠ ""

/-! ## SMTP session state machine (src/services/postfixHandler.js,
`class SMTPHandler`) -/

/-- The handler's `currentMail` object: `{ from: '', to: [], data: '' }`. -/
structure CurrentMail where
  from_ : String
  to_ : List String
  data : String
deriving Repr, DecidableEq

/-- Source `resetCurrentMail()` target / constructor value. -/
def emptyMail : CurrentMail := ⟨"", [], ""⟩

/-- The handler's mutable fields `currentState` (a free-form string in the
source: `'INIT' | 'READY' | 'MAIL' | 'RCPT' | 'DATA'`) and `currentMail`. -/
structure SMTPState where
  currentState : String
  currentMail : CurrentMail
deriving Repr, DecidableEq

/-- Constructor state of `SMTPHandler`. -/
def initialSMTPState : SMTPState := ⟨"INIT", emptyMail⟩

/-- Source `extractEmail`'s regex `/<([^>]+)>/` : leftmost position where a `<`
is followed by a nonempty run of non-`>` characters and then a `>`;
returns the captured run. -/
def takeUntilGt : List Char → Option (List Char)
  | [] => none
  | c :: rest => if c = '>' then some [] else (takeUntilGt rest).map (c :: ·)

def scanAngle : List Char → Option (List Char)
  | [] => none
  | c :: rest =>
    if c = '<' then
      match takeUntilGt rest with
      | some run => if run ≠ [] then some run else scanAngle rest
      | none => scanAngle rest
    else scanAngle rest

/-- Source `extractEmail(command)` : the first `<...>` capture, else `''`. -/
def extractEmail (command : String) : String :=
  match scanAngle command.data with
  | some run => String.mk run
  | none => ""

/-- Observable outcome of one `handleSMTPCommand` call: the updated
handler fields, the `socket.write` calls in order, the `currentMail`
snapshots handed to `processSMTPEmail`, and whether `socket.end` was
called. -/
structure StepResult where
  session : SMTPState
  writes : List String
  emitted : List CurrentMail
  closed : Bool
deriving Repr, DecidableEq

/-- Source `handleSMTPCommand(socket, command)`, branch for branch.  Note that
the source computes `cmd = command.toUpperCase()` and passes `cmd` (not
`command`) to `extractEmail`, that the `DATA` branch precedes the
`currentState === 'DATA'` branch and carries no state precondition, and
that the `HELO`/`EHLO` branch does not reset `currentMail`. -/
def handleSMTPCommand (s : SMTPState) (command : String) : StepResult :=
  let cmd := jsToUpper command
  if jsStartsWith cmd "HELO" ∨ jsStartsWith cmd "EHLO" then
    ⟨⟨"READY", s.currentMail⟩, ["250 tempmail.local Hello\r\n"], [], false⟩
  else if jsStartsWith cmd "MAIL FROM:" then
    ⟨⟨"MAIL", { s.currentMail with from_ := extractEmail cmd }⟩,
      ["250 OK\r\n"], [], false⟩
  else if jsStartsWith cmd "RCPT TO:" then
    ⟨⟨"RCPT", { s.currentMail with to_ := s.currentMail.to_ ++ [extractEmail cmd] }⟩,
      ["250 OK\r\n"], [], false⟩
  else if cmd = "DATA" then
    ⟨⟨"DATA", { s.currentMail with data := "" }⟩,
      ["354 Start mail input; end with <CRLF>.<CRLF>\r\n"], [], false⟩
  else if s.currentState = "DATA" then
    if command = "." then
      ⟨⟨"READY", emptyMail⟩, ["250 OK: Message accepted\r\n"], [s.currentMail], false⟩
    else
      ⟨⟨s.currentState, { s.currentMail with data := s.currentMail.data ++ command ++ "\r\n" }⟩,
        [], [], false⟩
  else if cmd = "QUIT" then
    ⟨s, ["221 Bye\r\n"], [], true⟩
  else if cmd = "RSET" then
    ⟨⟨"READY", emptyMail⟩, ["250 OK\r\n"], [], false⟩
  else
    ⟨s, ["500 Command not recognized\r\n"], [], false⟩

/-- Source `Array.prototype.join(', ')` as used on `currentMail.to`. -/
def joinComma : List String → String
  | [] => ""
  | [x] => x
  | x :: xs => x ++ ", " ++ joinComma xs

/-- The raw RFC822 message assembled by `processSMTPEmail` from a
`currentMail` snapshot; `dateStr` stands for `new Date().toUTCString()`. -/
def buildRawEmail (m : CurrentMail) (dateStr : String) : String :=
  "From: " ++ m.from_ ++ "\r\n" ++ "To: " ++ joinComma m.to_ ++ "\r\n" ++
    "Date: " ++ dateStr ++ "\r\n" ++ "\r\n" ++ m.data

/-- Result of feeding a list of complete CRLF-terminated lines to one
handler. -/
structure RunResult where
  session : SMTPState
  writes : List String
  emitted : List CurrentMail
deriving Repr, DecidableEq

/-- Sequential processing of complete lines, as `handleConnection`'s
`data` listener does after CRLF splitting. -/
def runSMTP (s : SMTPState) : List String → RunResult
  | [] => ⟨s, [], []⟩
  | l :: rest =>
    let r := handleSMTPCommand s l
    let rr := runSMTP r.session rest
    ⟨rr.session, r.writes ++ rr.writes, r.emitted ++ rr.emitted⟩

/-! ## Shared-handler server model (src/server.js `startServer` +
`net.createServer`)

`startServer` constructs a single `SMTPHandler`; `net.createServer`
invokes `handleConnection(socket)` of that one instance for every
accepted connection, so `currentState` and `currentMail` live on the one
shared handler object while only the line-reassembly `buffer` is local
to a connection. -/

/-- An interleaving event: a connection being accepted (which runs
`handleConnection`: greeting write plus `this.currentState = 'READY'`),
or a complete line arriving on a connection. -/
inductive ConnEvent where
  | connect (cid : Nat)
  | line (cid : Nat) (l : String)
deriving Repr, DecidableEq

/-- One event against the single shared handler; writes are tagged with
the connection they go to. -/
def serverStep (s : SMTPState) : ConnEvent → SMTPState × List (Nat × String) × List CurrentMail
  | .connect cid =>
    (⟨"READY", s.currentMail⟩, [(cid, "220 tempmail.local SMTP Service Ready\r\n")], [])
  | .line cid l =>
    let r := handleSMTPCommand s l
    (r.session, r.writes.map (fun w => (cid, w)), r.emitted)

/-- Folding an interleaved event trace over the shared handler state. -/
def serverRun (s : SMTPState) : List ConnEvent → SMTPState × List (Nat × String) × List CurrentMail
  | [] => (s, [], [])
  | e :: rest =>
    let (s1, w1, m1) := serverStep s e
    let (s2, w2, m2) := serverRun s1 rest
    (s2, w1 ++ w2, m1 ++ m2)

/-! ## Parsed-mail input (output of the external `mailparser.simpleParser`
collaborator, taken as input) -/

/-- One entry of `parsed.from.value` / `parsed.to.value`: an address
object whose `address` and `name` may each be absent or empty. -/
structure ParsedAddress where
  address : Option String
  name : Option String
deriving Repr, DecidableEq

/-- The fields of `simpleParser`'s result that
`EmailService.processIncomingEmail` reads.  `from_` and `to_` stand for
`parsed.from?.value?.[0]` and `parsed.to?.value?.[0]` (absent when the
whole chain is undefined); `headers` models the `parsed.headers` map
(`.get` is association lookup). -/
structure ParsedMail where
  subject : Option String
  text : Option String
  html : Option String
  from_ : Option ParsedAddress
  to_ : Option ParsedAddress
  headers : List (String × String)
  messageId : Option String
deriving Repr, DecidableEq

/-- Source `parsed.headers?.get(key)`. -/
def headersGet (p : ParsedMail) (key : String) : Option String :=
  (p.headers.find? (fun kv => kv.fst = key)).map Prod.snd

/-- Source `EmailService.extractRecipientEmail(parsed)` : first address of the
parsed `To`, else the `envelope-to` header, else the `delivered-to`
header (each only when truthy, i.e. a non-empty string), lower-cased;
else `null`. -/
def extractRecipientEmail (p : ParsedMail) : Option String :=
  if jsTruthy (p.to_.bind ParsedAddress.address) then
    (p.to_.bind ParsedAddress.address).map jsToLower
  else if jsTruthy (headersGet p "envelope-to") then
    (headersGet p "envelope-to").map jsToLower
  else if jsTruthy (headersGet p "delivered-to") then
    (headersGet p "delivered-to").map jsToLower
  else
    none

/-! ## TempEmail model (src/models/TempEmail.js) -/

/-- A row of the `temp_emails` table; `expires_at` in milliseconds since
the epoch. -/
structure TempEmailRec where
  id : Nat
  email_address : String
  is_active : Bool
  expires_at : Nat
deriving Repr, DecidableEq

/-- Source `TempEmail.findByEmail(emailAddress)` :
`SELECT * FROM temp_emails WHERE email_address = $1 AND is_active = true`,
first row. -/
def findByEmail (db : List TempEmailRec) (emailAddress : String) : Option TempEmailRec :=
  (db.filter (fun r => r.email_address = emailAddress ∧ r.is_active)).head?

/-! ## Body cleanup and quoted-printable decoding
(src/services/emailService.js) -/

/-- Source `bodyText.split('\n')`. -/
def splitNl (s : String) : List String :=
  (jsSplitAux s.data []).map String.mk
where
  jsSplitAux : List Char → List Char → List (List Char)
    | [], acc => [acc.reverse]
    | c :: rest, acc =>
      if c = '\n' then acc.reverse :: jsSplitAux rest []
      else jsSplitAux rest (c :: acc)

/-- Source `lines.join('\n')`. -/
def joinNl : List String → String
  | [] => ""
  | [x] => x
  | x :: xs => x ++ "\n" ++ joinNl xs

/-- The scan of the leaked-header cleanup: walk the body's lines looking
for the first marker, exactly as the `for` loop with its two `break`ing
conditions does.  `i` is the current index, `prev` holds `lines[i-1]`
(`none` at `i = 0`).  Returns the `messageStartIndex` set by the loop,
or `none` when the loop runs out (index stays `-1`). -/
def findMessageStart (total : Nat) : List String → Nat → Option String → Option Nat
  | [], _, _ => none
  | l :: rest, i, prev =>
    let line := jsTrim l
    if (jsStartsWith line "--" ∧ jsIncludes line "boundary") ∨
        (i > 0 ∧ prev.map jsTrim = some "" ∧
          line.data.length > 0 ∧ ¬ jsIncludes line ":") then
      some i
    else if jsIncludes line "Content-Type: text/plain" ∨
        jsIncludes line "Content-Transfer-Encoding:" then
      some (min (i + 3) (total - 1))
    else
      findMessageStart total rest (i + 1) (some l)

/-- The `if (bodyText && …'Received: by'… && …'DKIM-Signature:'…)`
cleanup block: on trigger, find the message start and, when it is
positive, keep only the lines from it on, rejoined and trimmed. -/
def cleanBodyText (bodyText : String) : String :=
  if bodyText ≠ "" ∧ jsIncludes bodyText "Received: by" ∧
      jsIncludes bodyText "DKIM-Signature:" then
    let lines := splitNl bodyText
    match findMessageStart lines.length lines 0 none with
    | some idx => if idx > 0 then jsTrim (joinNl (lines.drop idx)) else bodyText
    | none => bodyText
  else bodyText

/-- Source `text.replace(/=\r?\n/g, '')` : remove soft line breaks, left to
right. -/
def removeSoftBreaks : List Char → List Char
  | '=' :: '\r' :: '\n' :: rest => removeSoftBreaks rest
  | '=' :: '\n' :: rest => removeSoftBreaks rest
  | c :: rest => c :: removeSoftBreaks rest
  | [] => []

/-- Uppercase-hex digit class `[0-9A-F]` of the decoding regex. -/
def isUpperHex (c : Char) : Bool := ('0' ≤ c ∧ c ≤ '9') ∨ ('A' ≤ c ∧ c ≤ 'F')

/-- Value of an uppercase-hex digit. -/
def hexVal (c : Char) : Nat :=
  if c ≤ '9' then c.toNat - '0'.toNat else c.toNat - 'A'.toNat + 10

/-- Source `text.replace(/=([0-9A-F]{2})/g, (m, hex) =>
String.fromCharCode(parseInt(hex, 16)))` : left-to-right replacement of
each `=XX` (uppercase hex) by the character with that code. -/
def decodeHexEscapes : List Char → List Char
  | '=' :: h1 :: h2 :: rest =>
    if isUpperHex h1 ∧ isUpperHex h2 then
      Char.ofNat (16 * hexVal h1 + hexVal h2) :: decodeHexEscapes rest
    else '=' :: decodeHexEscapes (h1 :: h2 :: rest)
  | c :: rest => c :: decodeHexEscapes rest
  | [] => []

/-- Source `EmailService.decodeQuotedPrintable(text)` : the two `replace`
passes in sequence. -/
def decodeQuotedPrintable (text : String) : String :=
  String.mk (decodeHexEscapes (removeSoftBreaks text.data))

/-- The decoding trigger
`bodyText.includes('=E2=80=') || bodyText.includes('=\n')`. -/
def decodeGate (bodyText : String) : Bool :=
  jsIncludes bodyText "=E2=80=" ∨ jsIncludes bodyText "=\n"

/-- The body-text processing of `processIncomingEmail`: leaked-header
cleanup, then conditional quoted-printable decoding. -/
def processBodyText (bodyText : String) : String :=
  let cleaned := cleanBodyText bodyText
  if decodeGate cleaned then decodeQuotedPrintable cleaned else cleaned

/-! ## The ingestion pipeline + resolver gate
(`EmailService.processIncomingEmail`) -/

/-- The `emailData` record handed to `Email.create`. -/
structure EmailData where
  tempEmailId : Nat
  messageId : String
  senderEmail : String
  senderName : Option String
  recipientEmail : String
  subject : String
  bodyText : String
  bodyHtml : String
  sizeBytes : Nat
deriving Repr, DecidableEq

/-- Outcome of one `processIncomingEmail` call: `persisted e` when
`Email.create(e)` is reached (the function then returns the saved row),
`dropped` when it returns `null`, `errored msg` when it throws. -/
inductive ProcessResult where
  | persisted (e : EmailData)
  | dropped
  | errored (msg : String)
deriving Repr, DecidableEq

def ProcessResult.isPersisted : ProcessResult → Bool
  | .persisted _ => true
  | _ => false

/-- Source `EmailService.processIncomingEmail(rawEmail)` after the external
parse, as a function of the parsed mail, the `temp_emails` table, the
current time (`new Date()` in milliseconds) and the string
`generateMessageId()` would produce (it mixes `Date.now()` with
`Math.random()`, so it enters as a parameter).  `rawEmail` is kept for
the size computation. -/
def processIncomingEmail (db : List TempEmailRec) (now : Nat) (parsed : ParsedMail)
    (rawEmail : String) (genId : String) : ProcessResult :=
  match extractRecipientEmail parsed with
  | none => .errored "No recipient email found"
  | some recipientEmail =>
    match findByEmail db recipientEmail with
    | none => .dropped
    | some tempEmail =>
      if now > tempEmail.expires_at then .dropped
      else
        .persisted
          { tempEmailId := tempEmail.id
            messageId := jsOr parsed.messageId genId
            senderEmail := jsOr (parsed.from_.bind ParsedAddress.address) "unknown"
            senderName :=
              match parsed.from_.bind ParsedAddress.name with
              | some n => if n = "" then none else some n
              | none => none
            recipientEmail := recipientEmail
            subject := jsTrim (jsOr parsed.subject "(No Subject)")
            bodyText := jsTrim (processBodyText (jsOr parsed.text ""))
            bodyHtml := jsTrim (jsOr parsed.html "")
            sizeBytes := rawEmail.utf8ByteSize }

/-! ## Derived notions used by the theorems -/

/-- The command shapes that `handleSMTPCommand` matches before it ever
looks at `currentState`: these lines are handled as commands even while
the session is receiving DATA. -/
def interceptsAsCommand (l : String) : Bool :=
  jsStartsWith (jsToUpper l) "HELO" || jsStartsWith (jsToUpper l) "EHLO" ||
    jsStartsWith (jsToUpper l) "MAIL FROM:" || jsStartsWith (jsToUpper l) "RCPT TO:" ||
    (jsToUpper l == "DATA")

/-- The record handed to `Email.create`, when one was. -/
def ProcessResult.record : ProcessResult → Option EmailData
  | .persisted e => some e
  | _ => none

/-- The data buffer accumulated from a list of body lines: each line
plus CRLF, in order. -/
def crlfJoin : List String → String
  | [] => ""
  | l :: rest => l ++ "\r\n" ++ crlfJoin rest

/-- UTF-8 encoding of one code point. -/
def utf8Char (c : Char) : List Nat :=
  let n := c.toNat
  if n < 0x80 then [n]
  else if n < 0x800 then [0xC0 + n / 64, 0x80 + n % 64]
  else if n < 0x10000 then
    [0xE0 + n / 4096, 0x80 + (n / 64) % 64, 0x80 + n % 64]
  else
    [0xF0 + n / 262144, 0x80 + (n / 4096) % 64, 0x80 + (n / 64) % 64, 0x80 + n % 64]

/-- UTF-8 byte sequence of a string. -/
def utf8Bytes (s : String) : List Nat :=
  s.data.foldr (fun c acc => utf8Char c ++ acc) []

/-! ## Claim-side definitions (formalising the spec's words, for
comparison with the code) -/

/-- Modelled from the claim's wording (spec §4.2 step 5): the body
contains an `=XX` hex-escape pattern, i.e. an `=` followed by two hex
digits, somewhere. -/
def specHasQPPattern (s : String) : Bool :=
  specScan s.data
where
  specScan : List Char → Bool
    | '=' :: h1 :: h2 :: rest => (isUpperHex h1 && isUpperHex h2) || specScan (h1 :: h2 :: rest)
    | _ :: rest => specScan rest
    | [] => false

/-- Modelled from the claim's wording (spec §4.2 step 2): recipient
resolution falls back, after the three header sources, to the first
envelope `RCPT TO` address; empty results never count. -/
def specResolveRecipient (p : ParsedMail) (envelopeRcpts : List String) : Option String :=
  if jsTruthy (p.to_.bind ParsedAddress.address) then
    (p.to_.bind ParsedAddress.address).map jsToLower
  else if jsTruthy (headersGet p "envelope-to") then
    (headersGet p "envelope-to").map jsToLower
  else if jsTruthy (headersGet p "delivered-to") then
    (headersGet p "delivered-to").map jsToLower
  else
    match envelopeRcpts.head? with
    | some a => if a = "" then none else some a
    | none => none

/-! ## Helper lemmas -/

theorem strAppend_data (s t : String) : (s ++ t).data = s.data ++ t.data := rfl

theorem strAppend_assoc (s t u : String) : s ++ t ++ u = s ++ (t ++ u) := by
  cases s with | mk a =>
  cases t with | mk b =>
  cases u with | mk c =>
  show String.mk ((a ++ b) ++ c) = String.mk (a ++ (b ++ c))
  rw [List.append_assoc]

theorem strAppend_nil (s : String) : s ++ "" = s := by
  cases s with | mk a =>
  show String.mk (a ++ "".data) = String.mk a
  rw [show "".data = ([] : List Char) from rfl, List.append_nil]

theorem jsToUpper_append (s t : String) : jsToUpper (s ++ t) = jsToUpper s ++ jsToUpper t := by
  cases s with | mk a =>
  cases t with | mk b =>
  show String.mk (List.map ucChar (a ++ b)) = String.mk (List.map ucChar a ++ List.map ucChar b)
  rw [List.map_append]

theorem isPrefixOf_append_self : ∀ (p rest : List Char), p.isPrefixOf (p ++ rest) = true := by
  intro p
  induction p with
  | nil => intro rest; simp [List.isPrefixOf]
  | cons c cs ih => intro rest; simp [List.isPrefixOf, ih]

theorem takeUntilGt_append :
    ∀ (mid rest : List Char), '>' ∉ mid → takeUntilGt (mid ++ '>' :: rest) = some mid := by
  intro mid
  induction mid with
  | nil => intro rest _; simp [takeUntilGt]
  | cons c cs ih =>
    intro rest h
    have hc : ¬ (c = '>') := fun hh => h (by simp [hh])
    simp only [List.cons_append, takeUntilGt, if_neg hc, List.append_eq,
      ih rest (fun hh => h (by simp [hh]))]
    rfl

theorem scanAngle_wrap :
    ∀ (pre : List Char), '<' ∉ pre → ∀ (mid rest : List Char), mid ≠ [] → '>' ∉ mid →
      scanAngle (pre ++ '<' :: (mid ++ '>' :: rest)) = some mid := by
  intro pre hpre
  induction pre with
  | nil =>
    intro mid rest hne hgt
    rw [List.nil_append]
    unfold scanAngle
    rw [if_pos rfl, takeUntilGt_append mid rest hgt]
    simp only [if_pos hne]
  | cons c cs ih =>
    intro mid rest hne hgt
    have hc : ¬ (c = '<') := fun h => hpre (by simp [h])
    have hpre' : '<' ∉ cs := fun h => hpre (by simp [h])
    simp only [List.cons_append]
    unfold scanAngle
    rw [if_neg hc]
    exact ih hpre' mid rest hne hgt

/-! ## Claim C6 — the DATA command's state precondition -/

/-- Claim C6 counterexample: from state `READY` (the machine's
`Ready`), the line `DATA` is not answered `500 Command not recognized`
with the state unchanged, as the claim requires outside
`HaveRecipient`; the handler replies `354` and enters the
data-reception state. -/
theorem c6_data_from_ready_counterexample :
    (handleSMTPCommand ⟨"READY", emptyMail⟩ "DATA").writes =
      ["354 Start mail input; end with <CRLF>.<CRLF>\r\n"] ∧
    (handleSMTPCommand ⟨"READY", emptyMail⟩ "DATA").session.currentState = "DATA" ∧
    (["354 Start mail input; end with <CRLF>.<CRLF>\r\n"] ≠
      (["500 Command not recognized\r\n"] : List String)) := by
  refine ⟨rfl, rfl, ?_⟩
  decide

/-- Claim C6 (amended): the `DATA` branch of `handleSMTPCommand`
carries no state precondition, so from every session state the line
`DATA` is accepted: reply `354`, data buffer cleared, transition to the
data-reception state. -/
theorem c6_data_accepted_from_any_state (s : SMTPState) :
    handleSMTPCommand s "DATA" =
      ⟨⟨"DATA", { s.currentMail with data := "" }⟩,
        ["354 Start mail input; end with <CRLF>.<CRLF>\r\n"], [], false⟩ := rfl

/-! ## Claim C8 — HELO/EHLO and the envelope -/

/-- Claim C8 counterexample: with an envelope sender and recipient
already set, `HELO x` leaves the envelope untouched instead of
resetting it to empty as the claim requires. -/
theorem c8_helo_no_reset_counterexample :
    (handleSMTPCommand ⟨"MAIL", ⟨"A@B.COM", ["C@D.COM"], ""⟩⟩ "HELO x").session.currentMail =
      ⟨"A@B.COM", ["C@D.COM"], ""⟩ ∧
    (⟨"A@B.COM", ["C@D.COM"], ""⟩ : CurrentMail) ≠ emptyMail := by
  refine ⟨rfl, ?_⟩
  decide

/-- Claim C8 (amended): on receiving a line whose uppercase form starts
with `HELO` or `EHLO`, from any state, the session moves to `READY`
with reply `250 tempmail.local Hello`, and the envelope (sender,
recipient list and data buffer) is left unchanged — it is not reset. -/
theorem c8_helo_ready_envelope_kept (s : SMTPState) (l : String)
    (h : jsStartsWith (jsToUpper l) "HELO" ∨ jsStartsWith (jsToUpper l) "EHLO") :
    handleSMTPCommand s l =
      ⟨⟨"READY", s.currentMail⟩, ["250 tempmail.local Hello\r\n"], [], false⟩ := by
  unfold handleSMTPCommand
  rw [if_pos h]

/-- Claim C8 witness: the amended theorem applied to the concrete line
`HELO x` in the constructor state. -/
theorem c8_helo_ready_envelope_kept_witness :
    handleSMTPCommand initialSMTPState "HELO x" =
      ⟨⟨"READY", initialSMTPState.currentMail⟩, ["250 tempmail.local Hello\r\n"], [], false⟩ :=
  c8_helo_ready_envelope_kept initialSMTPState "HELO x" (Or.inl (by decide))

/-! ## Claim C5 — lines during data reception -/

/-- Claim C5 counterexample: while receiving data, the line `HELO evil`
is not appended to the buffer and it does get a reply — the command
branches precede the `currentState === 'DATA'` branch, contradicting
the claim that every non-`.` line (including `HELO`-starting ones) is
appended verbatim with no reply. -/
theorem c5_helo_during_data_counterexample :
    (handleSMTPCommand ⟨"DATA", ⟨"A", ["B"], "x\r\n"⟩⟩ "HELO evil").writes =
      ["250 tempmail.local Hello\r\n"] ∧
    (handleSMTPCommand ⟨"DATA", ⟨"A", ["B"], "x\r\n"⟩⟩ "HELO evil").session.currentMail.data =
      "x\r\n" ∧
    (["250 tempmail.local Hello\r\n"] ≠ ([] : List String)) ∧
    ("x\r\n" ≠ "x\r\n" ++ "HELO evil" ++ "\r\n") := by
  refine ⟨rfl, rfl, ?_, ?_⟩ <;> decide

/-- Claim C5 (amended): while receiving data, a line that is not `.`
and is not intercepted as a command (its uppercase form does not start
with `HELO`, `EHLO`, `MAIL FROM:` or `RCPT TO:` and is not `DATA`) is
appended verbatim plus CRLF to the buffer, with no reply and the state
unchanged; command-shaped lines are instead handled as commands. -/
theorem c5_data_line_appended (s : SMTPState) (l : String)
    (hstate : s.currentState = "DATA")
    (hcmd : interceptsAsCommand l = false)
    (hdot : l ≠ ".") :
    handleSMTPCommand s l =
      ⟨⟨s.currentState, { s.currentMail with data := s.currentMail.data ++ l ++ "\r\n" }⟩,
        [], [], false⟩ := by
  simp only [interceptsAsCommand, Bool.or_eq_false_iff, beq_eq_false_iff_ne, ne_eq] at hcmd
  obtain ⟨⟨⟨⟨h1, h2⟩, h3⟩, h4⟩, h5⟩ := hcmd
  unfold handleSMTPCommand
  rw [if_neg (by simp [h1, h2]), if_neg (by simp [h3]), if_neg (by simp [h4]),
    if_neg h5, if_pos hstate, if_neg hdot]

/-- Claim C5 witness: the amended theorem applied to the ordinary body
line `Hello world` in a data-receiving session. -/
theorem c5_data_line_appended_witness :
    handleSMTPCommand ⟨"DATA", emptyMail⟩ "Hello world" =
      ⟨⟨"DATA", { emptyMail with data := emptyMail.data ++ "Hello world" ++ "\r\n" }⟩,
        [], [], false⟩ :=
  c5_data_line_appended ⟨"DATA", emptyMail⟩ "Hello world" rfl (by decide) (by decide)

/-! ## Claim C2 — session isolation across connections -/

/-- Claim C2: the single `SMTPHandler` instance created by `startServer`
holds `currentState` and `currentMail` for all connections, so
interleaved connections corrupt each other's envelope.  In this trace
connection 1 runs a full transaction; connection 2 merely sends
`MAIL FROM:<c@d.com>` in the middle, and the message finalized by
connection 1 carries connection 2's envelope sender `C@D.COM` instead of
the `A@B.COM` connection 1 established. -/
theorem c2_shared_handler_envelope_corruption :
    (serverRun initialSMTPState
      [.connect 1, .line 1 "HELO x", .line 1 "MAIL FROM:<a@b.com>",
        .connect 2, .line 2 "MAIL FROM:<c@d.com>",
        .line 1 "RCPT TO:<e@f.com>", .line 1 "DATA", .line 1 "hi", .line 1 "."]).2.2 =
      [⟨"C@D.COM", ["E@F.COM"], "hi\r\n"⟩] ∧
    ("C@D.COM" ≠ "A@B.COM") := by
  refine ⟨rfl, ?_⟩
  decide

/-! ## Pipeline inversion helpers -/

theorem findByEmail_props :
    ∀ (db : List TempEmailRec) (a : String) (rec : TempEmailRec),
      findByEmail db a = some rec → rec.is_active = true ∧ rec.email_address = a := by
  intro db a
  induction db with
  | nil => intro rec h; simp [findByEmail] at h
  | cons r rs ih =>
    intro rec h
    simp only [findByEmail, List.filter_cons] at h
    split at h
    · next hcond =>
      simp only [List.head?_cons, Option.some_inj] at h
      subst h
      have hc := of_decide_eq_true hcond
      exact ⟨hc.2, hc.1⟩
    · next => exact ih rec h

theorem processPersisted_inv (db : List TempEmailRec) (now : Nat) (parsed : ParsedMail)
    (raw gid : String) (e : EmailData)
    (h : processIncomingEmail db now parsed raw gid = .persisted e) :
    ∃ r rec, extractRecipientEmail parsed = some r ∧ findByEmail db r = some rec ∧
      ¬ (now > rec.expires_at) ∧
      e = { tempEmailId := rec.id
            messageId := jsOr parsed.messageId gid
            senderEmail := jsOr (parsed.from_.bind ParsedAddress.address) "unknown"
            senderName :=
              match parsed.from_.bind ParsedAddress.name with
              | some n => if n = "" then none else some n
              | none => none
            recipientEmail := r
            subject := jsTrim (jsOr parsed.subject "(No Subject)")
            bodyText := jsTrim (processBodyText (jsOr parsed.text ""))
            bodyHtml := jsTrim (jsOr parsed.html "")
            sizeBytes := raw.utf8ByteSize } := by
  unfold processIncomingEmail at h
  cases hext : extractRecipientEmail parsed with
  | none => rw [hext] at h; simp at h
  | some r =>
    rw [hext] at h
    dsimp only at h
    cases hfind : findByEmail db r with
    | none => rw [hfind] at h; simp at h
    | some t =>
      rw [hfind] at h
      dsimp only at h
      by_cases hexp : now > t.expires_at
      · rw [if_pos hexp] at h; simp at h
      · rw [if_neg hexp] at h
        refine ⟨r, t, rfl, hfind, hexp, ?_⟩
        injection h with h'
        exact h'.symm

/-! ## Claim C1 — the resolver/expiry gate -/

/-- Claim C1 counterexample: with a record whose `expires_at` equals the
current instant, the code persists (the check is `now > expires_at`),
although the claim's liveness condition `now < expiresAt` (strictly
before) fails at that instant. -/
theorem c1_expiry_boundary_counterexample :
    (processIncomingEmail [⟨1, "u@x.com", true, 1000⟩] 1000
        ⟨none, none, none, none, some ⟨some "u@x.com", none⟩, [], none⟩ "raw" "g").isPersisted
      = true ∧
    ¬ ((1000 : Nat) < 1000) := by
  refine ⟨rfl, ?_⟩
  decide

/-- Claim C1 (amended): `Email.create` is reached only when the
resolver returned a row for the resolved recipient that is active
(`findByEmail` filters on `is_active = true`) and not yet strictly
expired — `now ≤ expires_at` rather than the claim's strict
`now < expiresAt`; and the unknown-address and expired-address cases
both end in the same observable `dropped` outcome (a `null` return, no
transport error), the inactive case being the unknown case because the
SQL filter hides inactive rows. -/
theorem c1_gate_requires_live_row :
    (∀ (db : List TempEmailRec) (now : Nat) (parsed : ParsedMail) (raw gid : String)
        (e : EmailData), processIncomingEmail db now parsed raw gid = .persisted e →
      ∃ r rec, extractRecipientEmail parsed = some r ∧ findByEmail db r = some rec ∧
        rec.is_active = true ∧ now ≤ rec.expires_at ∧ e.tempEmailId = rec.id ∧
        e.recipientEmail = r) ∧
    (∀ (db : List TempEmailRec) (now : Nat) (parsed : ParsedMail) (raw gid : String)
        (r : String), extractRecipientEmail parsed = some r → findByEmail db r = none →
      processIncomingEmail db now parsed raw gid = .dropped) ∧
    (∀ (db : List TempEmailRec) (now : Nat) (parsed : ParsedMail) (raw gid : String)
        (r : String) (rec : TempEmailRec), extractRecipientEmail parsed = some r →
      findByEmail db r = some rec → now > rec.expires_at →
      processIncomingEmail db now parsed raw gid = .dropped) := by
  refine ⟨?_, ?_, ?_⟩
  · intro db now parsed raw gid e h
    obtain ⟨r, rec, hext, hfind, hexp, he⟩ := processPersisted_inv db now parsed raw gid e h
    obtain ⟨hact, _⟩ := findByEmail_props db r rec hfind
    refine ⟨r, rec, hext, hfind, hact, Nat.le_of_not_lt hexp, ?_, ?_⟩ <;> rw [he]
  · intro db now parsed raw gid r hext hfind
    unfold processIncomingEmail
    rw [hext]
    dsimp only
    rw [hfind]
  · intro db now parsed raw gid r rec hext hfind hexp
    unfold processIncomingEmail
    rw [hext]
    dsimp only
    rw [hfind]
    dsimp only
    rw [if_pos hexp]

/-- Claim C1 witness: the amended gate applied at concrete inputs — a
live row at `now = 500` (whose bound `500 ≤ 1000` the theorem yields),
an unknown recipient, and an expired row. -/
theorem c1_gate_requires_live_row_witness :
    ((500 : Nat) ≤ 1000) ∧
    processIncomingEmail [⟨1, "u@x.com", true, 1000⟩] 0
      ⟨none, none, none, none, some ⟨some "nobody@x.com", none⟩, [], none⟩ "raw" "g" =
      .dropped ∧
    processIncomingEmail [⟨1, "u@x.com", true, 1000⟩] 2000
      ⟨none, none, none, none, some ⟨some "u@x.com", none⟩, [], none⟩ "raw" "g" =
      .dropped := by
  refine ⟨?_, ?_, ?_⟩
  · obtain ⟨r, rec, hext, hfind, _, hle, _, _⟩ :=
      c1_gate_requires_live_row.1 [⟨1, "u@x.com", true, 1000⟩] 500
        ⟨none, none, none, none, some ⟨some "u@x.com", none⟩, [], none⟩ "raw" "g"
        ⟨1, "g", "unknown", none, "u@x.com", "(No Subject)", "", "", 3⟩ (by decide)
    have h1 : extractRecipientEmail
        ⟨none, none, none, none, some ⟨some "u@x.com", none⟩, [], none⟩ = some "u@x.com" := by
      decide
    rw [hext] at h1
    injection h1 with h1
    subst h1
    have h2 : findByEmail [⟨1, "u@x.com", true, 1000⟩] "u@x.com" =
        some ⟨1, "u@x.com", true, 1000⟩ := by decide
    rw [hfind] at h2
    injection h2 with h2
    rw [h2] at hle
    exact hle
  · exact c1_gate_requires_live_row.2.1 _ 0 _ "raw" "g" "nobody@x.com" (by decide) (by decide)
  · exact c1_gate_requires_live_row.2.2 _ 2000 _ "raw" "g" "u@x.com" ⟨1, "u@x.com", true, 1000⟩
      (by decide) (by decide) (by decide)

/-! ## Claim C3 — recipient resolution fallbacks -/

/-- Claim C3 counterexample: for a parsed mail with no usable `To`,
`Envelope-To` or `Delivered-To` and a non-empty envelope `RCPT TO`
list, the claimed four-step procedure resolves to the first envelope
recipient, but the code's `extractRecipientEmail` has no such fallback —
it yields `null` and the pipeline throws. -/
theorem c3_no_rcpt_fallback_counterexample :
    specResolveRecipient ⟨none, none, none, none, none, [], none⟩ ["x@y.com"] =
      some "x@y.com" ∧
    extractRecipientEmail ⟨none, none, none, none, none, [], none⟩ = none ∧
    processIncomingEmail [] 0 ⟨none, none, none, none, none, [], none⟩ "raw" "g" =
      .errored "No recipient email found" := by
  refine ⟨rfl, rfl, rfl⟩

/-- Claim C3 (amended): recipient resolution tries, in order, only the
parsed `To` first address, the `Envelope-To` header and the
`Delivered-To` header (each lower-cased, empty values skipped); there
is no envelope `RCPT TO` fallback.  When all three fail the pipeline
throws `No recipient email found`, which its callers catch and log, and
the SMTP layer's `250 OK: Message accepted` reply is written before the
hand-off regardless, so nothing is surfaced to the transport. -/
theorem c3_resolution_fallbacks :
    (∀ (p : ParsedMail) (a : String), p.to_.bind ParsedAddress.address = some a → a ≠ "" →
      extractRecipientEmail p = some (jsToLower a)) ∧
    (∀ (p : ParsedMail) (v : String), jsTruthy (p.to_.bind ParsedAddress.address) = false →
      headersGet p "envelope-to" = some v → v ≠ "" →
      extractRecipientEmail p = some (jsToLower v)) ∧
    (∀ (p : ParsedMail) (v : String), jsTruthy (p.to_.bind ParsedAddress.address) = false →
      jsTruthy (headersGet p "envelope-to") = false →
      headersGet p "delivered-to" = some v → v ≠ "" →
      extractRecipientEmail p = some (jsToLower v)) ∧
    (∀ p : ParsedMail, jsTruthy (p.to_.bind ParsedAddress.address) = false →
      jsTruthy (headersGet p "envelope-to") = false →
      jsTruthy (headersGet p "delivered-to") = false →
      extractRecipientEmail p = none ∧
      ∀ (db : List TempEmailRec) (now : Nat) (raw gid : String),
        processIncomingEmail db now p raw gid = .errored "No recipient email found") ∧
    (∀ s : SMTPState, s.currentState = "DATA" →
      (handleSMTPCommand s ".").writes = ["250 OK: Message accepted\r\n"] ∧
      (handleSMTPCommand s ".").closed = false) := by
  refine ⟨?_, ?_, ?_, ?_, ?_⟩
  · intro p a h ha
    unfold extractRecipientEmail
    rw [if_pos (by simp [h, jsTruthy, ha]), h]
    rfl
  · intro p v h0 h hv
    unfold extractRecipientEmail
    rw [if_neg (by simp [h0]), if_pos (by simp [h, jsTruthy, hv]), h]
    rfl
  · intro p v h0 h1 h hv
    unfold extractRecipientEmail
    rw [if_neg (by simp [h0]), if_neg (by simp [h1]),
      if_pos (by simp [h, jsTruthy, hv]), h]
    rfl
  · intro p h0 h1 h2
    have hext : extractRecipientEmail p = none := by
      unfold extractRecipientEmail
      rw [if_neg (by simp [h0]), if_neg (by simp [h1]), if_neg (by simp [h2])]
    refine ⟨hext, ?_⟩
    intro db now raw gid
    unfold processIncomingEmail
    rw [hext]
  · intro s h
    unfold handleSMTPCommand
    rw [if_neg (by decide), if_neg (by decide), if_neg (by decide), if_neg (by decide),
      if_pos h, if_pos rfl]
    exact ⟨rfl, rfl⟩

/-- Claim C3 witness: the amended fallback behaviour at concrete
inputs — a usable `To` address (lower-cased), the all-absent case, and
the data-termination reply. -/
theorem c3_resolution_fallbacks_witness :
    extractRecipientEmail
        ⟨none, none, none, none, some ⟨some "User@Example.com", none⟩, [], none⟩ =
      some (jsToLower "User@Example.com") ∧
    extractRecipientEmail ⟨none, none, none, some ⟨some "a@b.com", none⟩, none, [], none⟩ =
      none ∧
    (handleSMTPCommand ⟨"DATA", emptyMail⟩ ".").writes = ["250 OK: Message accepted\r\n"] :=
  ⟨c3_resolution_fallbacks.1
      ⟨none, none, none, none, some ⟨some "User@Example.com", none⟩, [], none⟩
      "User@Example.com" rfl (by decide),
    (c3_resolution_fallbacks.2.2.2.1
      ⟨none, none, none, some ⟨some "a@b.com", none⟩, none, [], none⟩ rfl rfl rfl).1,
    (c3_resolution_fallbacks.2.2.2.2 ⟨"DATA", emptyMail⟩ rfl).1⟩

/-! ## Claim C4 — quoted-printable decoding trigger -/

/-- Claim C4 counterexample: `Caf=C3=A9` contains `=XX` hex-escape
patterns, yet the body processing leaves it unchanged — the code's
trigger is the literal substring `=E2=80=` or `=` followed by a
newline, not a general `=XX` test — so its decoding (which would change
it) is not applied. -/
theorem c4_trigger_counterexample :
    specHasQPPattern "Caf=C3=A9" = true ∧
    processBodyText "Caf=C3=A9" = "Caf=C3=A9" ∧
    decodeQuotedPrintable "Caf=C3=A9" ≠ "Caf=C3=A9" := by
  refine ⟨rfl, rfl, ?_⟩
  decide

/-- Claim C4 (amended): quoted-printable decoding of the (possibly
cleaned) body is applied only when it contains the literal substring
`=E2=80=` or a soft line break `=` + newline; otherwise the body passes
through unchanged.  When it does apply, soft breaks are removed and
each `=XX` (uppercase hex) becomes the character with code `XX`: the
body `Caf=C3=A9=\n` decodes to the byte sequence
`[67, 97, 102, 195, 169]`, which is exactly the UTF-8 encoding of
`Café`. -/
theorem c4_decode_gate_and_cafe :
    (∀ s : String, cleanBodyText s = s → decodeGate s = false → processBodyText s = s) ∧
    (processBodyText "Caf=C3=A9=\n").data.map Char.toNat = [67, 97, 102, 195, 169] ∧
    utf8Bytes "Café" = [67, 97, 102, 195, 169] := by
  refine ⟨?_, by decide, by decide⟩
  intro s h1 h2
  unfold processBodyText
  rw [h1]
  show (if decodeGate s = true then decodeQuotedPrintable s else s) = s
  rw [h2]
  simp

/-- Claim C4 witness: the amended trigger applied to the pattern-only
body `Caf=C3=A9`, which passes through undecoded. -/
theorem c4_decode_gate_and_cafe_witness :
    processBodyText "Caf=C3=A9" = "Caf=C3=A9" :=
  c4_decode_gate_and_cafe.1 "Caf=C3=A9" (by decide) (by decide)

/-! ## Claim C9 — subject defaulting -/

/-- Claim C9 counterexample: a whitespace-only parsed subject is truthy
in `parsed.subject || '(No Subject)'`, so it escapes the default and is
then trimmed to the empty string — not to `(No Subject)` as the claim
requires for blank (including whitespace-only) subjects. -/
theorem c9_whitespace_subject_counterexample :
    (processIncomingEmail [⟨1, "u@x.com", true, 1000⟩] 0
        ⟨some "   ", none, none, none, some ⟨some "u@x.com", none⟩, [], none⟩
        "raw" "g").record.map EmailData.subject = some "" ∧
    (some "" ≠ some "(No Subject)") := by
  refine ⟨rfl, ?_⟩
  decide

/-- Claim C9 (amended): the stored subject is `(No Subject)` exactly
when the parsed subject is absent or the empty string; any other parsed
subject — including a whitespace-only one, which trims to the empty
string — is stored trimmed. -/
theorem c9_subject_default (db : List TempEmailRec) (now : Nat) (parsed : ParsedMail)
    (raw gid : String) (e : EmailData)
    (h : processIncomingEmail db now parsed raw gid = .persisted e) :
    ((parsed.subject = none ∨ parsed.subject = some "") → e.subject = "(No Subject)") ∧
    (∀ s, parsed.subject = some s → s ≠ "" → e.subject = jsTrim s) := by
  obtain ⟨r, rec, _, _, _, he⟩ := processPersisted_inv db now parsed raw gid e h
  subst he
  constructor
  · intro hs
    show jsTrim (jsOr parsed.subject "(No Subject)") = "(No Subject)"
    cases hs with
    | inl h0 => rw [h0]; decide
    | inr h0 => rw [h0]; decide
  · intro s hs hne
    show jsTrim (jsOr parsed.subject "(No Subject)") = jsTrim s
    rw [hs]
    show jsTrim (if s = "" then "(No Subject)" else s) = jsTrim s
    rw [if_neg hne]

/-- Claim C9 witness: the amended subject rule applied to a run with no
parsed subject (default) and to one with subject `" Hi "` (trimmed). -/
theorem c9_subject_default_witness :
    (⟨1, "g", "unknown", none, "u@x.com", "(No Subject)", "", "", 3⟩ : EmailData).subject =
      "(No Subject)" ∧
    (⟨1, "g", "unknown", none, "u@x.com", "Hi", "", "", 3⟩ : EmailData).subject = "Hi" :=
  ⟨(c9_subject_default [⟨1, "u@x.com", true, 1000⟩] 0
      ⟨none, none, none, none, some ⟨some "u@x.com", none⟩, [], none⟩ "raw" "g"
      ⟨1, "g", "unknown", none, "u@x.com", "(No Subject)", "", "", 3⟩ (by decide)).1
      (Or.inl rfl),
    ((c9_subject_default [⟨1, "u@x.com", true, 1000⟩] 0
      ⟨some " Hi ", none, none, none, some ⟨some "u@x.com", none⟩, [], none⟩ "raw" "g"
      ⟨1, "g", "unknown", none, "u@x.com", "Hi", "", "", 3⟩ (by decide)).2
      " Hi " rfl (by decide)).trans (by decide)⟩

/-! ## Claim C10 — sender defaulting -/

/-- Claim C10 counterexample: a parsed `From` with a display name but
no address yields `senderEmail = "unknown"` as claimed, but
`senderName` is the name, not `null` — the two defaults are
independent. -/
theorem c10_name_without_address_counterexample :
    (processIncomingEmail [⟨1, "u@x.com", true, 1000⟩] 0
        ⟨none, none, none, some ⟨none, some "Bob"⟩, some ⟨some "u@x.com", none⟩, [], none⟩
        "raw" "g").record.map EmailData.senderName = some (some "Bob") ∧
    (processIncomingEmail [⟨1, "u@x.com", true, 1000⟩] 0
        ⟨none, none, none, some ⟨none, some "Bob"⟩, some ⟨some "u@x.com", none⟩, [], none⟩
        "raw" "g").record.map EmailData.senderEmail = some "unknown" ∧
    (some (some "Bob") ≠ some (none : Option String)) := by
  refine ⟨rfl, rfl, ?_⟩
  decide

/-- Claim C10 (amended): a message whose parsed `From` yields no
(non-empty) address is still persisted, with `senderEmail` the literal
`unknown`; `senderName` is `null` exactly when the `From` yields no
(non-empty) name, independently of the address — a name-only `From`
keeps its name. -/
theorem c10_sender_defaults (db : List TempEmailRec) (now : Nat) (parsed : ParsedMail)
    (raw gid : String) (e : EmailData)
    (h : processIncomingEmail db now parsed raw gid = .persisted e) :
    (jsTruthy (parsed.from_.bind ParsedAddress.address) = false → e.senderEmail = "unknown") ∧
    (jsTruthy (parsed.from_.bind ParsedAddress.name) = false → e.senderName = none) ∧
    (∀ n, parsed.from_.bind ParsedAddress.name = some n → n ≠ "" → e.senderName = some n) := by
  obtain ⟨r, rec, _, _, _, he⟩ := processPersisted_inv db now parsed raw gid e h
  subst he
  refine ⟨?_, ?_, ?_⟩
  · intro hf
    show jsOr (parsed.from_.bind ParsedAddress.address) "unknown" = "unknown"
    cases ho : parsed.from_.bind ParsedAddress.address with
    | none => rfl
    | some s =>
      rw [ho] at hf
      simp only [jsTruthy, ne_eq, decide_not, Bool.not_eq_false', decide_eq_true_eq] at hf
      rw [hf]
      rfl
  · intro hf
    show (match parsed.from_.bind ParsedAddress.name with
      | some n => if n = "" then none else some n
      | none => none) = none
    cases ho : parsed.from_.bind ParsedAddress.name with
    | none => rfl
    | some n =>
      rw [ho] at hf
      simp only [jsTruthy, ne_eq, decide_not, Bool.not_eq_false', decide_eq_true_eq] at hf
      rw [hf]
      rfl
  · intro n hn hne
    show (match parsed.from_.bind ParsedAddress.name with
      | some n => if n = "" then none else some n
      | none => none) = some n
    rw [hn]
    dsimp only
    rw [if_neg hne]

/-- Claim C10 witness: the amended sender rule applied to a run whose
parsed `From` is wholly absent — `senderEmail` defaults and
`senderName` is `null`. -/
theorem c10_sender_defaults_witness :
    (⟨1, "g", "unknown", none, "u@x.com", "(No Subject)", "", "", 3⟩ : EmailData).senderEmail =
      "unknown" ∧
    (⟨1, "g", "unknown", none, "u@x.com", "(No Subject)", "", "", 3⟩ : EmailData).senderName =
      none :=
  ⟨(c10_sender_defaults [⟨1, "u@x.com", true, 1000⟩] 0
      ⟨none, none, none, none, some ⟨some "u@x.com", none⟩, [], none⟩ "raw" "g"
      ⟨1, "g", "unknown", none, "u@x.com", "(No Subject)", "", "", 3⟩ (by decide)).1 rfl,
    (c10_sender_defaults [⟨1, "u@x.com", true, 1000⟩] 0
      ⟨none, none, none, none, some ⟨some "u@x.com", none⟩, [], none⟩ "raw" "g"
      ⟨1, "g", "unknown", none, "u@x.com", "(No Subject)", "", "", 3⟩ (by decide)).2.1 rfl⟩

/-! ## Claim C7 — full transaction, step lemmas -/

theorem strNil_append (s : String) : "" ++ s = s := by
  cases s with | mk a =>
  show String.mk ("".data ++ a) = String.mk a
  rw [show "".data = ([] : List Char) from rfl, List.nil_append]

theorem jsStartsWith_true_concat (pre t : String) : jsStartsWith (pre ++ t) pre = true := by
  unfold jsStartsWith
  rw [strAppend_data]
  exact isPrefixOf_append_self _ _

theorem jsStartsWith_head_ne (s pre : String) (c₁ : Char) (t₁ : List Char) (c₂ : Char)
    (t₂ : List Char) (hs : s.data = c₁ :: t₁) (hp : pre.data = c₂ :: t₂)
    (hne : (c₂ == c₁) = false) : jsStartsWith s pre = false := by
  unfold jsStartsWith
  rw [hs, hp]
  simp [List.isPrefixOf, hne]

theorem upperData_ne_nil (a : String) (h : a ≠ "") : (jsToUpper a).data ≠ [] := by
  intro hd
  apply h
  cases a with | mk l =>
  have hl : l = [] := by
    have : List.map ucChar l = [] := hd
    simpa using this
  rw [hl]

theorem handle_helo_line (s : SMTPState) (x : String) :
    handleSMTPCommand s ("HELO " ++ x) =
      ⟨⟨"READY", s.currentMail⟩, ["250 tempmail.local Hello\r\n"], [], false⟩ := by
  have hst : jsStartsWith (jsToUpper ("HELO " ++ x)) "HELO" = true := by
    rw [jsToUpper_append, show jsToUpper "HELO " = "HELO " from by decide,
      show ("HELO " : String) = "HELO" ++ " " from by decide, strAppend_assoc]
    exact jsStartsWith_true_concat "HELO" (" " ++ jsToUpper x)
  unfold handleSMTPCommand
  rw [if_pos (Or.inl hst)]

theorem handle_mail_from (s : SMTPState) (a : String) (ha : a ≠ "")
    (hga : '>' ∉ (jsToUpper a).data) :
    handleSMTPCommand s ("MAIL FROM:<" ++ a ++ ">") =
      ⟨⟨"MAIL", { s.currentMail with from_ := jsToUpper a }⟩, ["250 OK\r\n"], [], false⟩ := by
  have hupper : jsToUpper ("MAIL FROM:<" ++ a ++ ">") = "MAIL FROM:<" ++ jsToUpper a ++ ">" := by
    rw [jsToUpper_append, jsToUpper_append,
      show jsToUpper "MAIL FROM:<" = "MAIL FROM:<" from by decide,
      show jsToUpper ">" = ">" from by decide]
  have hdata : ("MAIL FROM:<" ++ jsToUpper a ++ ">").data =
      "MAIL FROM:".data ++ '<' :: ((jsToUpper a).data ++ '>' :: []) := by
    rw [strAppend_data, strAppend_data,
      show "MAIL FROM:<".data = "MAIL FROM:".data ++ ['<'] from rfl,
      show ">".data = ['>'] from rfl, List.append_assoc, List.append_assoc]
    rfl
  have hhead : ("MAIL FROM:<" ++ jsToUpper a ++ ">").data =
      'M' :: ("AIL FROM:".data ++ '<' :: ((jsToUpper a).data ++ '>' :: [])) := by
    rw [hdata]
    rfl
  have hmf : jsStartsWith ("MAIL FROM:<" ++ jsToUpper a ++ ">") "MAIL FROM:" = true := by
    rw [show ("MAIL FROM:<" ++ jsToUpper a ++ ">" : String) =
      "MAIL FROM:" ++ ("<" ++ (jsToUpper a ++ ">")) from by
        rw [show ("MAIL FROM:<" : String) = "MAIL FROM:" ++ "<" from by decide,
          strAppend_assoc, strAppend_assoc]]
    exact jsStartsWith_true_concat _ _
  have hex : extractEmail ("MAIL FROM:<" ++ jsToUpper a ++ ">") = jsToUpper a := by
    unfold extractEmail
    rw [hdata, scanAngle_wrap "MAIL FROM:".data (by decide) (jsToUpper a).data []
      (upperData_ne_nil a ha) hga]
  have hH : jsStartsWith ("MAIL FROM:<" ++ jsToUpper a ++ ">") "HELO" = false :=
    jsStartsWith_head_ne _ _ 'M' _ 'H' ("ELO".data) hhead rfl (by decide)
  have hE : jsStartsWith ("MAIL FROM:<" ++ jsToUpper a ++ ">") "EHLO" = false :=
    jsStartsWith_head_ne _ _ 'M' _ 'E' ("HLO".data) hhead rfl (by decide)
  unfold handleSMTPCommand
  rw [hupper]
  rw [if_neg (by simp [hH, hE]), if_pos hmf, hex]

theorem handle_rcpt_to (s : SMTPState) (b : String) (hb : b ≠ "")
    (hgb : '>' ∉ (jsToUpper b).data) :
    handleSMTPCommand s ("RCPT TO:<" ++ b ++ ">") =
      ⟨⟨"RCPT", { s.currentMail with to_ := s.currentMail.to_ ++ [jsToUpper b] }⟩,
        ["250 OK\r\n"], [], false⟩ := by
  have hupper : jsToUpper ("RCPT TO:<" ++ b ++ ">") = "RCPT TO:<" ++ jsToUpper b ++ ">" := by
    rw [jsToUpper_append, jsToUpper_append,
      show jsToUpper "RCPT TO:<" = "RCPT TO:<" from by decide,
      show jsToUpper ">" = ">" from by decide]
  have hdata : ("RCPT TO:<" ++ jsToUpper b ++ ">").data =
      "RCPT TO:".data ++ '<' :: ((jsToUpper b).data ++ '>' :: []) := by
    rw [strAppend_data, strAppend_data,
      show "RCPT TO:<".data = "RCPT TO:".data ++ ['<'] from rfl,
      show ">".data = ['>'] from rfl, List.append_assoc, List.append_assoc]
    rfl
  have hhead : ("RCPT TO:<" ++ jsToUpper b ++ ">").data =
      'R' :: ("CPT TO:".data ++ '<' :: ((jsToUpper b).data ++ '>' :: [])) := by
    rw [hdata]
    rfl
  have hH : jsStartsWith ("RCPT TO:<" ++ jsToUpper b ++ ">") "HELO" = false :=
    jsStartsWith_head_ne _ _ 'R' _ 'H' ("ELO".data) hhead rfl (by decide)
  have hE : jsStartsWith ("RCPT TO:<" ++ jsToUpper b ++ ">") "EHLO" = false :=
    jsStartsWith_head_ne _ _ 'R' _ 'E' ("HLO".data) hhead rfl (by decide)
  have hMF : jsStartsWith ("RCPT TO:<" ++ jsToUpper b ++ ">") "MAIL FROM:" = false :=
    jsStartsWith_head_ne _ _ 'R' _ 'M' ("AIL FROM:".data) hhead rfl (by decide)
  have hrt : jsStartsWith ("RCPT TO:<" ++ jsToUpper b ++ ">") "RCPT TO:" = true := by
    rw [show ("RCPT TO:<" ++ jsToUpper b ++ ">" : String) =
      "RCPT TO:" ++ ("<" ++ (jsToUpper b ++ ">")) from by
        rw [show ("RCPT TO:<" : String) = "RCPT TO:" ++ "<" from by decide,
          strAppend_assoc, strAppend_assoc]]
    exact jsStartsWith_true_concat _ _
  have hex : extractEmail ("RCPT TO:<" ++ jsToUpper b ++ ">") = jsToUpper b := by
    unfold extractEmail
    rw [hdata, scanAngle_wrap "RCPT TO:".data (by decide) (jsToUpper b).data []
      (upperData_ne_nil b hb) hgb]
  unfold handleSMTPCommand
  rw [hupper]
  rw [if_neg (by simp [hH, hE]), if_neg (by simp [hMF]), if_pos hrt, hex]

theorem handle_data_line (s : SMTPState) (l : String)
    (hstate : s.currentState = "DATA")
    (hcmd : interceptsAsCommand l = false)
    (hdot : l ≠ ".") :
    handleSMTPCommand s l =
      ⟨⟨s.currentState, { s.currentMail with data := s.currentMail.data ++ l ++ "\r\n" }⟩,
        [], [], false⟩ := by
  simp only [interceptsAsCommand, Bool.or_eq_false_iff, beq_eq_false_iff_ne, ne_eq] at hcmd
  obtain ⟨⟨⟨⟨h1, h2⟩, h3⟩, h4⟩, h5⟩ := hcmd
  unfold handleSMTPCommand
  rw [if_neg (by simp [h1, h2]), if_neg (by simp [h3]), if_neg (by simp [h4]),
    if_neg h5, if_pos hstate, if_neg hdot]

theorem handle_dot (s : SMTPState) (hstate : s.currentState = "DATA") :
    handleSMTPCommand s "." =
      ⟨⟨"READY", emptyMail⟩, ["250 OK: Message accepted\r\n"], [s.currentMail], false⟩ := by
  unfold handleSMTPCommand
  rw [if_neg (by decide), if_neg (by decide), if_neg (by decide), if_neg (by decide),
    if_pos hstate, if_pos rfl]

theorem runSMTP_data_lines :
    ∀ (body : List String), (∀ l ∈ body, interceptsAsCommand l = false ∧ l ≠ ".") →
      ∀ m : CurrentMail,
        runSMTP ⟨"DATA", m⟩ (body ++ ["."]) =
          ⟨⟨"READY", emptyMail⟩, ["250 OK: Message accepted\r\n"],
            [⟨m.from_, m.to_, m.data ++ crlfJoin body⟩]⟩ := by
  intro body
  induction body with
  | nil =>
    intro _ m
    show runSMTP ⟨"DATA", m⟩ ["."] = _
    simp only [runSMTP, handle_dot ⟨"DATA", m⟩ rfl]
    rw [show crlfJoin [] = "" from rfl, strAppend_nil]
    simp only [List.append_nil]
  | cons l rest ih =>
    intro h m
    have h1 := h l (by simp)
    have hrest : ∀ l' ∈ rest, interceptsAsCommand l' = false ∧ l' ≠ "." :=
      fun l' hl' => h l' (by simp [hl'])
    show runSMTP ⟨"DATA", m⟩ (l :: (rest ++ ["."])) = _
    simp only [runSMTP, handle_data_line ⟨"DATA", m⟩ l rfl h1.1 h1.2]
    rw [ih hrest ⟨m.from_, m.to_, m.data ++ l ++ "\r\n"⟩]
    simp only [List.nil_append]
    rw [show crlfJoin (l :: rest) = l ++ "\r\n" ++ crlfJoin rest from rfl,
      strAppend_assoc (m.data ++ l) "\r\n" (crlfJoin rest),
      strAppend_assoc m.data l ("\r\n" ++ crlfJoin rest),
      ← strAppend_assoc l "\r\n" (crlfJoin rest)]

theorem handle_data_cmd (s : SMTPState) :
    handleSMTPCommand s "DATA" =
      ⟨⟨"DATA", { s.currentMail with data := "" }⟩,
        ["354 Start mail input; end with <CRLF>.<CRLF>\r\n"], [], false⟩ := rfl

/-- Claim C7 counterexample: for the valid sequence with `a = a@b.com`,
`b = c@d.com`, the synthesized headers carry `A@B.COM` / `C@D.COM` — the
handler extracts the addresses from the upper-cased command line — so
the raw message does not reflect `a` and `b` exactly. -/
theorem c7_uppercase_counterexample :
    (runSMTP initialSMTPState
        ["HELO t", "MAIL FROM:<a@b.com>", "RCPT TO:<c@d.com>", "DATA", "Hello", "."]).emitted =
      [⟨"A@B.COM", ["C@D.COM"], "Hello\r\n"⟩] ∧
    buildRawEmail ⟨"A@B.COM", ["C@D.COM"], "Hello\r\n"⟩ "D" =
      "From: A@B.COM\r\nTo: C@D.COM\r\nDate: D\r\n\r\nHello\r\n" ∧
    ("A@B.COM" ≠ "a@b.com") := by
  refine ⟨by decide, by decide, by decide⟩

/-- Claim C7 (amended): for every sequence `HELO x`; `MAIL FROM:<a>`;
`RCPT TO:<b>`; `DATA`; body lines; `.` in which `a` and `b` are
non-empty and `>`-free and no body line is `.` or command-shaped, the
ingestion pipeline receives exactly one raw message — its synthesized
`From` and `To` carry the upper-cased `a` and `b` (the handler extracts
addresses from the upper-cased line), followed by a synthetic `Date`
header, a blank line and the buffered body — and the session returns to
`READY`, the final reply being `250 OK: Message accepted`. -/
theorem c7_transaction (x a b : String) (body : List String) (d : String)
    (ha : a ≠ "") (hga : '>' ∉ (jsToUpper a).data)
    (hb : b ≠ "") (hgb : '>' ∉ (jsToUpper b).data)
    (hbody : ∀ l ∈ body, interceptsAsCommand l = false ∧ l ≠ ".") :
    runSMTP initialSMTPState
        (["HELO " ++ x, "MAIL FROM:<" ++ a ++ ">", "RCPT TO:<" ++ b ++ ">", "DATA"] ++
          body ++ ["."]) =
      ⟨⟨"READY", emptyMail⟩,
        ["250 tempmail.local Hello\r\n", "250 OK\r\n", "250 OK\r\n",
          "354 Start mail input; end with <CRLF>.<CRLF>\r\n", "250 OK: Message accepted\r\n"],
        [⟨jsToUpper a, [jsToUpper b], crlfJoin body⟩]⟩ ∧
    buildRawEmail ⟨jsToUpper a, [jsToUpper b], crlfJoin body⟩ d =
      "From: " ++ jsToUpper a ++ "\r\n" ++ "To: " ++ jsToUpper b ++ "\r\n" ++
        "Date: " ++ d ++ "\r\n" ++ "\r\n" ++ crlfJoin body := by
  constructor
  · simp only [List.cons_append, List.nil_append, List.append_assoc]
    simp only [runSMTP]
    rw [handle_helo_line, handle_mail_from _ a ha hga, handle_rcpt_to _ b hb hgb,
      handle_data_cmd]
    dsimp only
    rw [runSMTP_data_lines body hbody
      ⟨jsToUpper a, initialSMTPState.currentMail.to_ ++ [jsToUpper b], ""⟩]
    dsimp only
    simp only [initialSMTPState, emptyMail, List.nil_append, strNil_append]
    rfl
  · rfl

/-- Claim C7 witness: the amended transaction theorem at the concrete
sequence of the spec's scenario. -/
theorem c7_transaction_witness :
    runSMTP initialSMTPState
        (["HELO " ++ "t", "MAIL FROM:<" ++ "a@b.com" ++ ">", "RCPT TO:<" ++ "c@d.com" ++ ">",
          "DATA"] ++ ["Hello world"] ++ ["."]) =
      ⟨⟨"READY", emptyMail⟩,
        ["250 tempmail.local Hello\r\n", "250 OK\r\n", "250 OK\r\n",
          "354 Start mail input; end with <CRLF>.<CRLF>\r\n", "250 OK: Message accepted\r\n"],
        [⟨jsToUpper "a@b.com", [jsToUpper "c@d.com"], crlfJoin ["Hello world"]⟩]⟩ :=
  (c7_transaction "t" "a@b.com" "c@d.com" ["Hello world"] "D" (by decide) (by decide)
    (by decide) (by decide) (by decide)).1

end TempMail
